import Mathlib

/-!
Verification of the image-asset CRUD service (`src/main.py`) against its
natural-language specification.  The Python handlers are shallowly embedded:
the filesystem is an association list from paths to byte lists plus a list of
existing directories, the metadata table is a list of rows in insertion order,
and the nondeterministic parts (the fresh UUID token, the server clock, and
whether the filesystem / database calls succeed) are explicit parameters.
-/

namespace GlossyImages

instance {ε : Type u} {α : Type v} [DecidableEq ε] [DecidableEq α] :
    DecidableEq (Except ε α) := fun x y =>
  match x, y with
  | .error a, .error b => decidable_of_iff (a = b) ⟨congrArg Except.error, Except.error.inj⟩
  | .error _, .ok _ => isFalse (fun h => Except.noConfusion h)
  | .ok _, .error _ => isFalse (fun h => Except.noConfusion h)
  | .ok a, .ok b => decidable_of_iff (a = b) ⟨congrArg Except.ok, Except.ok.inj⟩

/-- Error kinds, one per distinct `HTTPException` site in `main.py`. -/
inductive Err where
  | invalidCategory
  | noExtension
  | extNotAllowed
  | tooLarge
  | saveFailed
  | dbFailed
  | invalidFilename
  | imageNotFound
  | fileNotFound
  | noImages
  | categoryNotFound
  | removeFailed
deriving DecidableEq, Repr

/-- The HTTP status code each error is raised with in `main.py`. -/
def Err.status : Err → Nat
  | .invalidCategory => 400
  | .noExtension => 400
  | .extNotAllowed => 400
  | .invalidFilename => 400
  | .tooLarge => 413
  | .imageNotFound => 404
  | .fileNotFound => 404
  | .noImages => 404
  | .categoryNotFound => 404
  | .saveFailed => 500
  | .dbFailed => 500
  | .removeFailed => 500

/-- `needle` occurs as a contiguous run inside `hay`. -/
def containsSub (needle : List Char) : List Char → Bool
  | [] => needle.isEmpty
  | c :: tl => needle.isPrefixOf (c :: tl) || containsSub needle tl

/-- Python `needle in hay` substring test. -/
def pyContains (needle hay : String) : Bool :=
  containsSub needle.data hay.data

/-- Python `str.lower()` (ASCII case folding, which covers every
extension the allow-list can match). -/
def pyLower (s : String) : String :=
  String.mk (s.data.map Char.toLower)

/-- Python `str.lstrip(".")`: drop every leading dot. -/
def lstripDots (s : String) : String :=
  String.mk (s.data.dropWhile (fun c => c = '.'))

/-- Index of the last occurrence of `c`, as in Python `str.rfind` (but
`none` instead of `-1` when absent). -/
def lastIdxOf (c : Char) : List Char → Option Nat
  | [] => none
  | x :: xs =>
    match lastIdxOf c xs with
    | some n => some (n + 1)
    | none => if x = c then some 0 else none

/-- The extension component of Python `posixpath.splitext`: the last
dot after the last `/` starts the extension, unless every character of
the basename up to that dot is itself a dot. -/
def splitextExt (p : String) : String :=
  let cs := p.data
  let sepIdx := lastIdxOf '/' cs
  match lastIdxOf '.' cs with
  | none => ""
  | some d =>
    let fi := match sepIdx with
      | none => 0
      | some s => s + 1
    let gt : Bool := match sepIdx with
      | none => true
      | some s => decide (s < d)
    if gt then
      if ((cs.drop fi).take (d - fi)).any (fun c => c ≠ '.') then
        String.mk (cs.drop d)
      else ""
    else ""

/-- Python `str.split("/")`, over character lists. -/
def splitOnSlash : List Char → List (List Char)
  | [] => [[]]
  | c :: cs =>
    let r := splitOnSlash cs
    if c = '/' then [] :: r
    else
      match r with
      | [] => [[c]]
      | g :: gs => (c :: g) :: gs

/-- Python `"/".join(...)`, over character lists. -/
def joinSlash : List (List Char) → List Char
  | [] => []
  | [g] => g
  | g :: gs => g ++ '/' :: joinSlash gs

/-- Python `posixpath.normpath`. -/
def normpath (path : String) : String :=
  let cs := path.data
  if cs = [] then "."
  else
    let initialSlashes : Nat :=
      if ['/'].isPrefixOf cs then
        if ['/', '/'].isPrefixOf cs && !(['/', '/', '/'].isPrefixOf cs) then 2 else 1
      else 0
    let comps := splitOnSlash cs
    let newComps := comps.foldl (fun acc comp =>
      if comp = ([] : List Char) || comp = ['.'] then acc
      else if !(comp = ['.', '.']) || (decide (initialSlashes = 0) && acc.isEmpty)
              || (acc.getLast? == some ['.', '.']) then
        acc ++ [comp]
      else acc.dropLast) ([] : List (List Char))
    let full := List.replicate initialSlashes '/' ++ joinSlash newComps
    if full = [] then "." else String.mk full

/-- Python `posixpath.join` restricted to two components, which is how
`main.py` uses it (three-argument joins are left-nested pairs). -/
def pjoin (a b : String) : String :=
  if ['/'].isPrefixOf b.data then b
  else if a.data = [] || a.data.getLast? = some '/' then String.mk (a.data ++ b.data)
  else String.mk (a.data ++ '/' :: b.data)

def BASE_UPLOAD_DIR : String := "images"

def ALLOWED_EXTENSIONS : List String := ["png", "jpg", "jpeg", "webp", "jfif", "avif"]

def MAX_FILE_SIZE : Nat := 10 * 1024 * 1024

/-- `validate_file_extension` from `main.py`: split off the extension,
lower-case it, strip the leading dots, reject empty or disallowed. -/
def validate_file_extension (filename : String) : Except Err String :=
  let ext := lstripDots (pyLower (splitextExt filename))
  if ext = "" then .error .noExtension
  else if !(ALLOWED_EXTENSIONS.contains ext) then .error .extNotAllowed
  else .ok ext

/-- `validate_category` from `main.py`: normalize, then reject anything
starting with `..` or containing `/` or a backslash. -/
def validate_category (category : String) : Except Err String :=
  let safe_category := normpath category
  if ['.', '.'].isPrefixOf safe_category.data || pyContains "/" safe_category
      || pyContains "\\" safe_category then
    .error .invalidCategory
  else .ok safe_category

/-- A metadata row of the `images` table (`models/image.py`). -/
structure Image where
  id : Nat
  filename : String
  category : String
  created_at : Nat
deriving DecidableEq, Repr

/-- World state: files on disk (path to bytes), existing directories,
metadata rows in insertion order, the next autoincrement id, and the
clock used for `created_at`. -/
structure St where
  files : List (String × List Nat)
  dirs : List String
  db : List Image
  nextId : Nat
  now : Nat
deriving DecidableEq, Repr

/-- Environment of a single request: whether the streaming file write,
the `os.remove`/`shutil.rmtree` calls, and the database commit succeed. -/
structure Env where
  writeOk : Bool
  removeOk : Bool
  dbOk : Bool
deriving DecidableEq, Repr

def fsLookup (path : String) (files : List (String × List Nat)) : Option (List Nat) :=
  (files.find? (fun p => p.1 == path)).map (fun p => p.2)

def fsExists (path : String) (files : List (String × List Nat)) : Bool :=
  (files.find? (fun p => p.1 == path)).isSome

def fsWrite (path : String) (content : List Nat)
    (files : List (String × List Nat)) : List (String × List Nat) :=
  (path, content) :: files.filter (fun p => p.1 != path)

def fsRemove (path : String) (files : List (String × List Nat)) : List (String × List Nat) :=
  files.filter (fun p => p.1 != path)

/-- Response of a successful `POST /upload` (`main.py` returns only the
new id and the image URL). -/
structure UploadResp where
  id : Nat
  image_url : String
deriving DecidableEq, Repr

/-- `upload_image` from `main.py`.  `token` is the fresh `uuid.uuid4()`
value.  Order of effects follows the source: validate category, validate
extension, check size, `makedirs`, stream the bytes to disk (on failure
remove the partial file and fail), insert the row (on failure — database
error or duplicate filename — remove the just-written file and fail). -/
def upload_image (category fname : String) (content : List Nat) (token : String)
    (env : Env) (st : St) : St × Except Err UploadResp :=
  match validate_category category with
  | .error e => (st, .error e)
  | .ok safe_category =>
    match validate_file_extension fname with
    | .error e => (st, .error e)
    | .ok ext =>
      if content.length > MAX_FILE_SIZE then (st, .error .tooLarge)
      else
        let filename := token ++ "." ++ ext
        let category_dir := pjoin BASE_UPLOAD_DIR safe_category
        let st1 : St := { st with
          dirs := if st.dirs.contains category_dir then st.dirs
                  else category_dir :: st.dirs }
        let file_path := pjoin category_dir filename
        if env.writeOk = false then
          ({ st1 with files := fsRemove file_path st1.files }, .error .saveFailed)
        else
          let st2 : St := { st1 with files := fsWrite file_path content st1.files }
          if env.dbOk && !(st2.db.any (fun r => r.filename == filename)) then
            let img : Image :=
              { id := st2.nextId, filename := filename,
                category := safe_category, created_at := st2.now }
            ({ st2 with db := st2.db ++ [img], nextId := st2.nextId + 1 },
             .ok { id := img.id, image_url := "/images/" ++ filename })
          else
            ({ st2 with files := fsRemove file_path st2.files }, .error .dbFailed)

/-- The filename guard shared by `GET /images/{filename}` and
`DELETE /images/{filename}`. -/
def badFilename (filename : String) : Bool :=
  pyContains ".." filename || pyContains "/" filename || pyContains "\\" filename

/-- Response of `GET /images/{filename}`: the file bytes served by
`FileResponse`, the media type derived from the extension, and the id
used in the ETag header. -/
structure GetResp where
  bytes : List Nat
  media_type : String
  etag_id : Nat
deriving DecidableEq, Repr

/-- `get_image` from `main.py`: guard the filename, look the row up by
filename, then serve the file at `images/<category>/<filename>`. -/
def get_image (filename : String) (st : St) : Except Err GetResp :=
  if badFilename filename then .error .invalidFilename
  else
    match st.db.find? (fun r => r.filename == filename) with
    | none => .error .imageNotFound
    | some image =>
      let path := pjoin (pjoin BASE_UPLOAD_DIR image.category) filename
      match fsLookup path st.files with
      | none => .error .fileNotFound
      | some bs =>
        .ok { bytes := bs,
              media_type := "image/" ++ lstripDots (splitextExt filename),
              etag_id := image.id }

/-- `delete_image` from `main.py`: guard the filename, look the row up,
remove the file if it exists on disk (an absent file is not an error),
then delete the row. -/
def delete_image (filename : String) (env : Env) (st : St) :
    St × Except Err String :=
  if badFilename filename then (st, .error .invalidFilename)
  else
    match st.db.find? (fun r => r.filename == filename) with
    | none => (st, .error .imageNotFound)
    | some image =>
      let path := pjoin (pjoin BASE_UPLOAD_DIR image.category) filename
      let dbStep : St → St × Except Err String := fun stx =>
        if env.dbOk then
          ({ stx with db := stx.db.filter (fun r => r.id != image.id) },
           .ok filename)
        else (stx, .error .dbFailed)
      if fsExists path st.files then
        if env.removeOk then
          dbStep { st with files := fsRemove path st.files }
        else (st, .error .removeFailed)
      else dbStep st

def underBase (p : String) : Bool :=
  (BASE_UPLOAD_DIR.data ++ ['/']).isPrefixOf p.data

/-- `delete_all` from `main.py`: 404 when the table is empty, else remove
every entry under the upload root, then delete every row. -/
def delete_all (env : Env) (st : St) : St × Except Err Nat :=
  let total := st.db.length
  if total == 0 then (st, .error .noImages)
  else if env.removeOk = false then (st, .error .removeFailed)
  else
    let st1 : St := { st with
      files := st.files.filter (fun p => !(underBase p.1)),
      dirs := st.dirs.filter (fun d => !(underBase d)) }
    if env.dbOk then ({ st1 with db := [] }, .ok total)
    else (st1, .error .dbFailed)

/-- `delete_category` from `main.py`: validate the category, 404 when no
row has it, remove the category directory if it exists on disk (an
absent directory is skipped, not an error), then delete the rows. -/
def delete_category (category : String) (env : Env) (st : St) :
    St × Except Err (String × Nat) :=
  match validate_category category with
  | .error e => (st, .error e)
  | .ok safe_category =>
    let images := st.db.filter (fun r => r.category == safe_category)
    if images.isEmpty then (st, .error .categoryNotFound)
    else
      let category_dir := pjoin BASE_UPLOAD_DIR safe_category
      let dbStep : St → St × Except Err (String × Nat) := fun stx =>
        if env.dbOk then
          ({ stx with db := stx.db.filter (fun r => r.category != safe_category) },
           .ok (safe_category, images.length))
        else (stx, .error .dbFailed)
      if st.dirs.contains category_dir then
        if env.removeOk then
          dbStep { st with
            files := st.files.filter
              (fun p => !((category_dir.data ++ ['/']).isPrefixOf p.1.data)),
            dirs := st.dirs.filter
              (fun d => !(decide (d = category_dir)
                          || (category_dir.data ++ ['/']).isPrefixOf d.data)) }
        else (st, .error .removeFailed)
      else dbStep st

/-- One element of the `GET /images` listing. -/
structure ImageItem where
  id : Nat
  filename : String
  category : String
  url : String
deriving DecidableEq, Repr

/-- `get_all_images` from `main.py`: `db.query(Image).limit(1000).all()`
is a `SELECT` with **no** `ORDER BY`, so the database returns the rows in
an order of its own choosing.  That choice is modelled by the explicit
parameter `sel`: the rows as the database delivered them, constrained in
the theorems to be a permutation of the stored table.  The handler then
applies the 1000-row `limit` and maps each row to its listing item (the
empty case returns `[]`, which the map already does). -/
def get_all_images (sel : List Image) : List ImageItem :=
  (sel.take 1000).map (fun im =>
    { id := im.id, filename := im.filename, category := im.category,
      url := "/images/" ++ im.filename })

/-- An empty starting state with only the upload root directory. -/
def emptySt : St := { files := [], dirs := ["images"], db := [], nextId := 0, now := 0 }

/-- An environment where every filesystem and database call succeeds. -/
def okEnv : Env := { writeOk := true, removeOk := true, dbOk := true }

example : normpath "" = "." := by decide
example : normpath "../etc" = "../etc" := by decide
example : normpath "a/../b" = "b" := by decide
example : normpath "a/.." = "." := by decide
example : normpath "./x" = "x" := by decide
example : normpath "//x" = "//x" := by decide
example : splitextExt "a.png" = ".png" := by decide
example : splitextExt ".bashrc" = "" := by decide
example : splitextExt "a..png" = ".png" := by decide
example : splitextExt "...png" = "" := by decide
example : validate_file_extension "photo.PNG" = .ok "png" := by decide
example : validate_file_extension "a.exe" = .error .extNotAllowed := by decide
example : validate_category "" = .ok "." := by decide
example : validate_category "../etc" = .error .invalidCategory := by decide
example : validate_category "pets" = .ok "pets" := by decide

theorem fsLookup_fsWrite_self (p : String) (c : List Nat)
    (files : List (String × List Nat)) :
    fsLookup p (fsWrite p c files) = some c := by
  simp [fsLookup, fsWrite]

theorem fsExists_fsRemove_self (p : String) (files : List (String × List Nat)) :
    fsExists p (fsRemove p files) = false := by
  have hnone : (files.filter (fun q => q.1 != p)).find? (fun q => q.1 == p) = none := by
    rw [List.find?_eq_none]
    intro x hx
    simp only [List.mem_filter, bne_iff_ne, ne_eq] at hx
    simp [hx.2]
  simp [fsExists, fsRemove, hnone]

theorem fsWrite_exists_self (p : String) (c : List Nat)
    (files : List (String × List Nat)) :
    fsExists p (fsWrite p c files) = true := by
  simp [fsExists, fsWrite]

theorem validate_category_error (c : String) (e : Err)
    (h : validate_category c = .error e) : e = .invalidCategory := by
  unfold validate_category at h
  by_cases hc : (['.', '.'].isPrefixOf (normpath c).data || pyContains "/" (normpath c)
      || pyContains "\\" (normpath c)) = true
  · simp only [hc, if_true] at h
    exact (Except.error.inj h).symm
  · simp only [Bool.not_eq_true] at hc
    simp [hc] at h

theorem validate_file_extension_ok (f e : String)
    (h : validate_file_extension f = .ok e) :
    e = lstripDots (pyLower (splitextExt f)) ∧
    ALLOWED_EXTENSIONS.contains e = true := by
  unfold validate_file_extension at h
  simp only [] at h
  split at h
  · cases h
  · split at h
    · cases h
    · rename_i h1 h2
      have he : e = lstripDots (pyLower (splitextExt f)) := (Except.ok.inj h).symm
      subst he
      refine ⟨rfl, ?_⟩
      simpa using h2

/-- Characterization of a fully successful upload: the file is written at
`images/<safe_category>/<token>.<ext>`, the row is appended with the next
id and the current clock, and the response carries the id and the URL. -/
theorem upload_image_ok
    (category fname : String) (content : List Nat) (token : String)
    (env : Env) (st : St) (sc e : String)
    (hcat : validate_category category = .ok sc)
    (hext : validate_file_extension fname = .ok e)
    (hsize : content.length ≤ MAX_FILE_SIZE)
    (hw : env.writeOk = true) (hdb : env.dbOk = true)
    (hfresh : st.db.any (fun r => r.filename == token ++ "." ++ e) = false) :
    upload_image category fname content token env st =
      ({ files := fsWrite (pjoin (pjoin BASE_UPLOAD_DIR sc) (token ++ "." ++ e))
            content st.files,
         dirs := if st.dirs.contains (pjoin BASE_UPLOAD_DIR sc) then st.dirs
                 else pjoin BASE_UPLOAD_DIR sc :: st.dirs,
         db := st.db ++ [⟨st.nextId, token ++ "." ++ e, sc, st.now⟩],
         nextId := st.nextId + 1, now := st.now },
       .ok ⟨st.nextId, "/images/" ++ (token ++ "." ++ e)⟩) := by
  have hsize' : ¬ (content.length > MAX_FILE_SIZE) := by omega
  unfold upload_image
  rw [hcat, hext]
  simp [hsize', hw, hdb, hfresh]

/-- Characterization of an upload whose streaming write fails: the
partial file is removed again and the database is never touched. -/
theorem upload_image_writefail
    (category fname : String) (content : List Nat) (token : String)
    (env : Env) (st : St) (sc e : String)
    (hcat : validate_category category = .ok sc)
    (hext : validate_file_extension fname = .ok e)
    (hsize : content.length ≤ MAX_FILE_SIZE)
    (hw : env.writeOk = false) :
    upload_image category fname content token env st =
      ({ files := fsRemove (pjoin (pjoin BASE_UPLOAD_DIR sc) (token ++ "." ++ e)) st.files,
         dirs := if st.dirs.contains (pjoin BASE_UPLOAD_DIR sc) then st.dirs
                 else pjoin BASE_UPLOAD_DIR sc :: st.dirs,
         db := st.db, nextId := st.nextId, now := st.now },
       .error .saveFailed) := by
  have hsize' : ¬ (content.length > MAX_FILE_SIZE) := by omega
  unfold upload_image
  rw [hcat, hext]
  simp [hsize', hw]

/-- Characterization of an upload whose row insert fails (database error
or duplicate filename): the just-written file is removed again and the
table keeps exactly its previous rows. -/
theorem upload_image_dbfail
    (category fname : String) (content : List Nat) (token : String)
    (env : Env) (st : St) (sc e : String)
    (hcat : validate_category category = .ok sc)
    (hext : validate_file_extension fname = .ok e)
    (hsize : content.length ≤ MAX_FILE_SIZE)
    (hw : env.writeOk = true)
    (hins : (env.dbOk && !(st.db.any (fun r => r.filename == token ++ "." ++ e))) = false) :
    upload_image category fname content token env st =
      ({ files := fsRemove (pjoin (pjoin BASE_UPLOAD_DIR sc) (token ++ "." ++ e))
            (fsWrite (pjoin (pjoin BASE_UPLOAD_DIR sc) (token ++ "." ++ e)) content st.files),
         dirs := if st.dirs.contains (pjoin BASE_UPLOAD_DIR sc) then st.dirs
                 else pjoin BASE_UPLOAD_DIR sc :: st.dirs,
         db := st.db, nextId := st.nextId, now := st.now },
       .error .dbFailed) := by
  have hsize' : ¬ (content.length > MAX_FILE_SIZE) := by omega
  unfold upload_image
  rw [hcat, hext]
  simp [hsize', hw, hins]

/-- C1: the blob write precedes the row insert; when the insert fails
the just-written file is deleted again, the error is reported and the
table is unchanged — and for *any* outcome of the environment, every row
of the resulting table is either an old row or has a backing file at its
blob path, so no new row is ever visible without backing bytes. -/
theorem upload_insert_failure_cleanup
    (category fname : String) (content : List Nat) (token : String)
    (env env2 : Env) (st : St) (sc e : String) (r : Image)
    (hcat : validate_category category = .ok sc)
    (hext : validate_file_extension fname = .ok e)
    (hsize : content.length ≤ MAX_FILE_SIZE)
    (hw : env.writeOk = true) (hdb : env.dbOk = false)
    (hr : r ∈ (upload_image category fname content token env2 st).1.db) :
    (upload_image category fname content token env st).2 = .error .dbFailed ∧
    fsExists (pjoin (pjoin BASE_UPLOAD_DIR sc) (token ++ "." ++ e))
      (upload_image category fname content token env st).1.files = false ∧
    (upload_image category fname content token env st).1.db = st.db ∧
    (r ∈ st.db ∨
      fsExists (pjoin (pjoin BASE_UPLOAD_DIR sc) r.filename)
        (upload_image category fname content token env2 st).1.files = true) := by
  have hins : (env.dbOk && !(st.db.any (fun q => q.filename == token ++ "." ++ e))) = false := by
    rw [hdb]; rfl
  rw [upload_image_dbfail category fname content token env st sc e hcat hext hsize hw hins]
  refine ⟨rfl, fsExists_fsRemove_self _ _, rfl, ?_⟩
  cases hw2 : env2.writeOk with
  | false =>
    rw [upload_image_writefail category fname content token env2 st sc e hcat hext hsize hw2] at hr
    exact Or.inl hr
  | true =>
    by_cases hins2 : (env2.dbOk && !(st.db.any (fun q => q.filename == token ++ "." ++ e))) = true
    · have hdb2 : env2.dbOk = true := (Bool.and_eq_true _ _ |>.mp hins2).1
      have hfr : st.db.any (fun q => q.filename == token ++ "." ++ e) = false := by
        have := (Bool.and_eq_true _ _ |>.mp hins2).2
        simpa using this
      rw [upload_image_ok category fname content token env2 st sc e hcat hext hsize hw2 hdb2 hfr]
        at hr ⊢
      simp only [List.mem_append, List.mem_singleton] at hr
      rcases hr with hold | hnew
      · exact Or.inl hold
      · right
        subst hnew
        exact fsWrite_exists_self _ _ _
    · have hins2' : (env2.dbOk && !(st.db.any (fun q => q.filename == token ++ "." ++ e))) = false := by
        simpa using hins2
      rw [upload_image_dbfail category fname content token env2 st sc e hcat hext hsize hw2 hins2']
        at hr
      exact Or.inl hr

theorem upload_insert_failure_cleanup_witness :
    (upload_image "pets" "a.png" [1, 2, 3] "tok" ⟨true, true, false⟩ emptySt).2 =
      .error .dbFailed ∧
    fsExists (pjoin (pjoin BASE_UPLOAD_DIR "pets") ("tok" ++ "." ++ "png"))
      (upload_image "pets" "a.png" [1, 2, 3] "tok" ⟨true, true, false⟩
        emptySt).1.files = false ∧
    (upload_image "pets" "a.png" [1, 2, 3] "tok" ⟨true, true, false⟩
        emptySt).1.db = emptySt.db ∧
    ((⟨0, "tok.png", "pets", 0⟩ : Image) ∈ emptySt.db ∨
      fsExists (pjoin (pjoin BASE_UPLOAD_DIR "pets") (Image.filename ⟨0, "tok.png", "pets", 0⟩))
        (upload_image "pets" "a.png" [1, 2, 3] "tok" ⟨true, true, true⟩ emptySt).1.files = true) := by
  have h := upload_insert_failure_cleanup "pets" "a.png" [1, 2, 3] "tok"
    ⟨true, true, false⟩ ⟨true, true, true⟩ emptySt "pets" "png" ⟨0, "tok.png", "pets", 0⟩
    (by decide) (by decide) (by decide) rfl rfl (by decide)
  exact h

/-- C2 (round trip): after a successful upload, fetching the stored
filename returns exactly the uploaded content bytes. -/
theorem upload_then_get_roundtrip
    (category fname : String) (content : List Nat) (token : String)
    (env : Env) (st : St) (sc e : String)
    (hcat : validate_category category = .ok sc)
    (hext : validate_file_extension fname = .ok e)
    (hsize : content.length ≤ MAX_FILE_SIZE)
    (hw : env.writeOk = true) (hdb : env.dbOk = true)
    (hfresh : st.db.any (fun r => r.filename == token ++ "." ++ e) = false)
    (hname : badFilename (token ++ "." ++ e) = false) :
    get_image (token ++ "." ++ e) (upload_image category fname content token env st).1 =
      .ok { bytes := content,
            media_type := "image/" ++ lstripDots (splitextExt (token ++ "." ++ e)),
            etag_id := st.nextId } := by
  rw [upload_image_ok category fname content token env st sc e hcat hext hsize hw hdb hfresh]
  have hnone : st.db.find? (fun r => r.filename == token ++ "." ++ e) = none := by
    rw [List.find?_eq_none]
    intro x hx
    have := List.any_eq_false.mp hfresh x hx
    simpa using this
  unfold get_image
  rw [if_neg (by simp [hname])]
  simp only [List.find?_append, hnone, Option.none_or]
  rw [List.find?_cons_of_pos _ (by simp)]
  simp only []
  rw [fsLookup_fsWrite_self]

theorem upload_then_get_roundtrip_witness :
    get_image ("tok" ++ "." ++ "png")
      (upload_image "pets" "a.png" [1, 2, 3] "tok" okEnv emptySt).1 =
      .ok { bytes := [1, 2, 3],
            media_type := "image/" ++ lstripDots (splitextExt ("tok" ++ "." ++ "png")),
            etag_id := emptySt.nextId } :=
  upload_then_get_roundtrip "pets" "a.png" [1, 2, 3] "tok" okEnv emptySt "pets" "png"
    (by decide) (by decide) (by decide) rfl rfl (by decide) (by decide)

/-- C7: a successful upload stores the freshly generated token followed
by the validated lower-cased extension as the filename; the
caller-supplied filename is not the stored name. -/
theorem stored_filename_generated
    (category fname : String) (content : List Nat) (token : String)
    (env : Env) (st : St) (sc e : String)
    (hcat : validate_category category = .ok sc)
    (hext : validate_file_extension fname = .ok e)
    (hsize : content.length ≤ MAX_FILE_SIZE)
    (hw : env.writeOk = true) (hdb : env.dbOk = true)
    (hfresh : st.db.any (fun r => r.filename == token ++ "." ++ e) = false)
    (hne : fname ≠ token ++ "." ++ e) :
    (upload_image category fname content token env st).1.db =
      st.db ++ [{ id := st.nextId, filename := token ++ "." ++ e,
                  category := sc, created_at := st.now }] ∧
    e = lstripDots (pyLower (splitextExt fname)) ∧
    ALLOWED_EXTENSIONS.contains e = true ∧
    (token ++ "." ++ e) ≠ fname := by
  rw [upload_image_ok category fname content token env st sc e hcat hext hsize hw hdb hfresh]
  have hx := validate_file_extension_ok fname e hext
  exact ⟨rfl, hx.1, hx.2, fun hh => hne hh.symm⟩

theorem stored_filename_generated_witness :
    (upload_image "pets" "Photo.PNG" [1, 2, 3] "tok" okEnv emptySt).1.db =
      emptySt.db ++ [{ id := emptySt.nextId, filename := "tok" ++ "." ++ "png",
                       category := "pets", created_at := emptySt.now }] ∧
    "png" = lstripDots (pyLower (splitextExt "Photo.PNG")) ∧
    ALLOWED_EXTENSIONS.contains "png" = true ∧
    ("tok" ++ "." ++ "png") ≠ "Photo.PNG" :=
  stored_filename_generated "pets" "Photo.PNG" [1, 2, 3] "tok" okEnv emptySt "pets" "png"
    (by decide) (by decide) (by decide) rfl rfl (by decide) (by decide)

/-- C4 counterexample: the claim says an *empty* category string is
rejected with `InvalidInput`, but `validate_category ""` normalizes the
empty string to `"."` and accepts it, and an upload with the empty
category succeeds (storing the file directly under the root). -/
theorem empty_category_accepted :
    validate_category "" = .ok "." ∧
    (upload_image "" "a.png" [1, 2, 3] "tok" okEnv emptySt).2 =
      .ok { id := 0, image_url := "/images/tok.png" } ∧
    (upload_image "" "a.png" [1, 2, 3] "tok" okEnv emptySt).1.db =
      [{ id := 0, filename := "tok.png", category := ".", created_at := 0 }] := by
  decide

/-- C4 (amended): for every category string that after `normpath`
normalization starts with `..` (which covers `..` itself and anything
starting with `../`) or contains `/` or a backslash, both operations
taking a category (upload and delete-by-category) fail with the 400
`InvalidInput` error before any mutation: the returned state is exactly
the input state, so no directory is ever created outside the root. -/
theorem invalid_category_rejected
    (category : String)
    (hbad : (['.', '.'].isPrefixOf (normpath category).data
             || pyContains "/" (normpath category)
             || pyContains "\\" (normpath category)) = true)
    (fname : String) (content : List Nat) (token : String) (env : Env) (st : St) :
    upload_image category fname content token env st = (st, .error .invalidCategory) ∧
    delete_category category env st = (st, .error .invalidCategory) ∧
    Err.status .invalidCategory = 400 := by
  have h : validate_category category = .error .invalidCategory := by
    unfold validate_category
    simp only []
    rw [hbad]
    simp
  refine ⟨?_, ?_, rfl⟩
  · unfold upload_image
    rw [h]
  · unfold delete_category
    rw [h]

theorem invalid_category_rejected_witness :
    upload_image "../etc" "a.png" [1, 2, 3] "tok" okEnv emptySt =
      (emptySt, .error .invalidCategory) ∧
    delete_category "../etc" okEnv emptySt = (emptySt, .error .invalidCategory) ∧
    Err.status .invalidCategory = 400 :=
  invalid_category_rejected "../etc" (by decide) "a.png" [1, 2, 3] "tok" okEnv emptySt

/-- C5: the uploaded filename's extension is split off, lower-cased and
checked against the allow-list (second binder group `g`, `e'`); when the
computed extension is empty or not in the allow-list (binder `fname`),
the upload fails with a 400 `InvalidInput` error and the state is
untouched, so nothing is written and no row is inserted. -/
theorem bad_extension_rejected
    (fname : String)
    (hbad : lstripDots (pyLower (splitextExt fname)) = "" ∨
            ALLOWED_EXTENSIONS.contains (lstripDots (pyLower (splitextExt fname))) = false)
    (category : String) (content : List Nat) (token : String) (env : Env) (st : St)
    (g e' : String) (hg : validate_file_extension g = .ok e') :
    (∃ er : Err, (upload_image category fname content token env st).2 = .error er ∧
      Err.status er = 400) ∧
    (upload_image category fname content token env st).1 = st ∧
    e' = lstripDots (pyLower (splitextExt g)) ∧
    ALLOWED_EXTENSIONS.contains e' = true := by
  have hext : validate_file_extension fname = .error .noExtension ∨
      validate_file_extension fname = .error .extNotAllowed := by
    unfold validate_file_extension
    simp only []
    by_cases hemp : lstripDots (pyLower (splitextExt fname)) = ""
    · left; rw [if_pos hemp]
    · right
      rcases hbad with hb | hb
      · exact absurd hb hemp
      · have hcond : (!ALLOWED_EXTENSIONS.contains
            (lstripDots (pyLower (splitextExt fname)))) = true := by
          rw [hb]; rfl
        rw [if_neg hemp, if_pos hcond]
  have hmain : (∃ er : Err, (upload_image category fname content token env st).2 = .error er ∧
      Err.status er = 400) ∧ (upload_image category fname content token env st).1 = st := by
    unfold upload_image
    cases hc : validate_category category with
    | error ec =>
      have : ec = .invalidCategory := validate_category_error category ec hc
      subst this
      exact ⟨⟨.invalidCategory, rfl, rfl⟩, rfl⟩
    | ok sc =>
      rcases hext with hx | hx <;> rw [hx]
      · exact ⟨⟨.noExtension, rfl, rfl⟩, rfl⟩
      · exact ⟨⟨.extNotAllowed, rfl, rfl⟩, rfl⟩
  exact ⟨hmain.1, hmain.2, validate_file_extension_ok g e' hg⟩

theorem bad_extension_rejected_witness :
    (∃ er : Err, (upload_image "pets" "virus.exe" [1, 2, 3] "tok" okEnv emptySt).2 =
        .error er ∧ Err.status er = 400) ∧
    (upload_image "pets" "virus.exe" [1, 2, 3] "tok" okEnv emptySt).1 = emptySt ∧
    "png" = lstripDots (pyLower (splitextExt "photo.PNG")) ∧
    ALLOWED_EXTENSIONS.contains "png" = true :=
  bad_extension_rejected "virus.exe" (by decide) "pets" [1, 2, 3] "tok" okEnv emptySt
    "photo.PNG" "png" (by decide)

/-- C6: an upload whose content is strictly larger than the 10 MiB
`MAX_FILE_SIZE` is rejected with an error and leaves the state exactly
as it was, so no bytes reach the disk and no metadata row is created. -/
theorem oversized_upload_rejected
    (category fname : String) (content : List Nat) (token : String)
    (env : Env) (st : St)
    (hsize : content.length > MAX_FILE_SIZE) :
    (upload_image category fname content token env st).1 = st ∧
    ∃ er : Err, (upload_image category fname content token env st).2 = .error er := by
  unfold upload_image
  cases hc : validate_category category with
  | error ec => exact ⟨rfl, ec, rfl⟩
  | ok sc =>
    cases hx : validate_file_extension fname with
    | error ex => exact ⟨rfl, ex, rfl⟩
    | ok e =>
      constructor
      · simp [hsize]
      · exact ⟨.tooLarge, by simp [hsize]⟩

theorem oversized_upload_rejected_witness :
    (upload_image "pets" "a.png" (List.replicate (MAX_FILE_SIZE + 1) 7)
        "tok" okEnv emptySt).1 = emptySt ∧
    ∃ er : Err, (upload_image "pets" "a.png" (List.replicate (MAX_FILE_SIZE + 1) 7)
        "tok" okEnv emptySt).2 = .error er :=
  oversized_upload_rejected "pets" "a.png" (List.replicate (MAX_FILE_SIZE + 1) 7)
    "tok" okEnv emptySt (by simp)

/-- C10: a filename containing `..`, `/` or a backslash makes both
`get_image` and `delete_image` fail with the 400 `InvalidInput` error;
the result is the same for every state (so no metadata lookup can have
influenced it) and `delete_image` returns the state untouched (so no
filesystem access happened). -/
theorem traversal_filename_rejected
    (filename : String)
    (hbad : (pyContains ".." filename || pyContains "/" filename
             || pyContains "\\" filename) = true)
    (st st2 : St) (env : Env) :
    get_image filename st = .error .invalidFilename ∧
    delete_image filename env st = (st, .error .invalidFilename) ∧
    get_image filename st = get_image filename st2 ∧
    Err.status .invalidFilename = 400 := by
  have h : badFilename filename = true := hbad
  refine ⟨?_, ?_, ?_, rfl⟩
  · unfold get_image
    rw [if_pos h]
  · unfold delete_image
    rw [if_pos h]
  · unfold get_image
    rw [if_pos h, if_pos h]

theorem traversal_filename_rejected_witness :
    get_image "../secret" emptySt = .error .invalidFilename ∧
    delete_image "../secret" okEnv emptySt = (emptySt, .error .invalidFilename) ∧
    get_image "../secret" emptySt =
      get_image "../secret"
        { files := [("x", [1])], dirs := [], db := [], nextId := 3, now := 9 } ∧
    Err.status .invalidFilename = 400 :=
  traversal_filename_rejected "../secret" (by decide) emptySt
    { files := [("x", [1])], dirs := [], db := [], nextId := 3, now := 9 } okEnv

/-- C8 counterexample: the listing query has no `ORDER BY`, so the
database may deliver the rows in any order.  For a concrete table whose
insertion (and id) order is `[id 0, id 1]`, the reversed delivery order
is a legal result of the `SELECT` (a permutation of the stored rows),
and the listing built from it is *not* in insertion/id order — so the
claim that list-all returns the records in insertion/id order is false. -/
theorem list_order_not_guaranteed :
    ([⟨1, "b.jpg", "cats", 1⟩, ⟨0, "a.png", "pets", 0⟩] : List Image).Perm
      (⟨[], ["images"], [⟨0, "a.png", "pets", 0⟩, ⟨1, "b.jpg", "cats", 1⟩],
        2, 2⟩ : St).db ∧
    get_all_images [⟨1, "b.jpg", "cats", 1⟩, ⟨0, "a.png", "pets", 0⟩] =
      [⟨1, "b.jpg", "cats", "/images/b.jpg"⟩, ⟨0, "a.png", "pets", "/images/a.png"⟩] ∧
    ¬ (get_all_images [⟨1, "b.jpg", "cats", 1⟩, ⟨0, "a.png", "pets", 0⟩]).Pairwise
        (fun a b => a.id < b.id) := by
  decide

/-- C8 (amended): whatever row order the database chooses for the
`ORDER BY`-less query, the listing of a table with at most 1000 rows
contains exactly the stored records (each once, as a permutation of the
table's projections), the 1000-row cap bounds the result size, and the
result is the delivered rows truncated to 1000 and projected — but no
particular order, in particular not insertion/id order, is guaranteed. -/
theorem get_all_images_cap_and_rows
    (st : St) (sel : List Image) (hperm : sel.Perm st.db)
    (hlen : st.db.length ≤ 1000) :
    (get_all_images sel).Perm (st.db.map (fun im =>
      { id := im.id, filename := im.filename, category := im.category,
        url := "/images/" ++ im.filename })) ∧
    (get_all_images sel).length ≤ 1000 ∧
    get_all_images sel = (sel.take 1000).map (fun im =>
      { id := im.id, filename := im.filename, category := im.category,
        url := "/images/" ++ im.filename }) := by
  have hsel : sel.length ≤ 1000 := hperm.length_eq ▸ hlen
  refine ⟨?_, ?_, rfl⟩
  · unfold get_all_images
    rw [List.take_of_length_le hsel]
    exact hperm.map _
  · unfold get_all_images
    rw [List.length_map, List.length_take]
    exact min_le_left _ _

theorem get_all_images_cap_and_rows_witness :
    (get_all_images [⟨1, "b.jpg", "cats", 1⟩, ⟨0, "a.png", "pets", 0⟩]).Perm
      (([⟨0, "a.png", "pets", 0⟩, ⟨1, "b.jpg", "cats", 1⟩] : List Image).map (fun im =>
        { id := im.id, filename := im.filename, category := im.category,
          url := "/images/" ++ im.filename })) ∧
    (get_all_images [⟨1, "b.jpg", "cats", 1⟩, ⟨0, "a.png", "pets", 0⟩]).length ≤ 1000 ∧
    get_all_images [⟨1, "b.jpg", "cats", 1⟩, ⟨0, "a.png", "pets", 0⟩] =
      (([⟨1, "b.jpg", "cats", 1⟩, ⟨0, "a.png", "pets", 0⟩] : List Image).take 1000).map
        (fun im => { id := im.id, filename := im.filename, category := im.category,
                     url := "/images/" ++ im.filename }) :=
  get_all_images_cap_and_rows
    ⟨[], ["images"], [⟨0, "a.png", "pets", 0⟩, ⟨1, "b.jpg", "cats", 1⟩], 2, 2⟩
    [⟨1, "b.jpg", "cats", 1⟩, ⟨0, "a.png", "pets", 0⟩]
    (by decide) (by decide)

/-- C9 counterexample: two successful uploads that differ only in the
record's creation time (and would differ in the persisted `created_at`
column, as the stored rows show) produce *identical* responses, so the
response cannot include the creation time; the response also carries no
category field, only the id and the URL.  This falsifies the claim that
the create operation returns the full `ImageRecord` including category
and creation time. -/
theorem upload_response_missing_fields :
    (upload_image "pets" "a.png" [1, 2, 3] "tok" okEnv { emptySt with now := 5 }).2 =
      (upload_image "pets" "a.png" [1, 2, 3] "tok" okEnv { emptySt with now := 99 }).2 ∧
    (upload_image "pets" "a.png" [1, 2, 3] "tok" okEnv { emptySt with now := 5 }).1.db =
      [{ id := 0, filename := "tok.png", category := "pets", created_at := 5 }] ∧
    (upload_image "pets" "a.png" [1, 2, 3] "tok" okEnv { emptySt with now := 99 }).1.db =
      [{ id := 0, filename := "tok.png", category := "pets", created_at := 99 }] ∧
    (upload_image "pets" "a.png" [1, 2, 3] "tok" okEnv { emptySt with now := 5 }).2 =
      .ok { id := 0, image_url := "/images/tok.png" } := by
  decide

/-- C9 (amended): on success the upload returns the new record's id
together with an image URL embedding the stored filename; the category
and creation time are persisted in the new row but are not part of the
response. -/
theorem upload_response_fields
    (category fname : String) (content : List Nat) (token : String)
    (env : Env) (st : St) (sc e : String)
    (hcat : validate_category category = .ok sc)
    (hext : validate_file_extension fname = .ok e)
    (hsize : content.length ≤ MAX_FILE_SIZE)
    (hw : env.writeOk = true) (hdb : env.dbOk = true)
    (hfresh : st.db.any (fun r => r.filename == token ++ "." ++ e) = false) :
    (upload_image category fname content token env st).2 =
      .ok { id := st.nextId, image_url := "/images/" ++ (token ++ "." ++ e) } ∧
    (upload_image category fname content token env st).1.db =
      st.db ++ [{ id := st.nextId, filename := token ++ "." ++ e,
                  category := sc, created_at := st.now }] := by
  rw [upload_image_ok category fname content token env st sc e hcat hext hsize hw hdb hfresh]
  exact ⟨rfl, rfl⟩

theorem upload_response_fields_witness :
    (upload_image "pets" "a.png" [1, 2, 3] "tok" okEnv emptySt).2 =
      .ok { id := emptySt.nextId, image_url := "/images/" ++ ("tok" ++ "." ++ "png") } ∧
    (upload_image "pets" "a.png" [1, 2, 3] "tok" okEnv emptySt).1.db =
      emptySt.db ++ [{ id := emptySt.nextId, filename := "tok" ++ "." ++ "png",
                       category := "pets", created_at := emptySt.now }] :=
  upload_response_fields "pets" "a.png" [1, 2, 3] "tok" okEnv emptySt "pets" "png"
    (by decide) (by decide) (by decide) rfl rfl (by decide)

/-- C3: for each delete operation, blob removal precedes row removal and
an absent blob is tolerated.  Scenario A: `delete_image` on a row whose
file is already absent on disk succeeds and removes the row.  Scenario
B: when `delete_image`'s database step fails, the file has already been
removed while the rows are untouched (blob before row).  Scenario C:
`delete_category` on a category whose directory is absent succeeds and
removes the rows.  Scenario D: when `delete_category`'s database step
fails after the directory removal, the files under the category
directory are already gone while the rows are untouched.  Scenario E:
the same ordering for `delete_all`. -/
theorem delete_blob_before_row
    (stA : St) (fA : String) (imA : Image) (envA : Env)
    (hA1 : badFilename fA = false)
    (hA2 : stA.db.find? (fun r => r.filename == fA) = some imA)
    (hA3 : fsExists (pjoin (pjoin BASE_UPLOAD_DIR imA.category) fA) stA.files = false)
    (hA4 : envA.dbOk = true)
    (stB : St) (fB : String) (imB : Image) (envB : Env)
    (hB1 : badFilename fB = false)
    (hB2 : stB.db.find? (fun r => r.filename == fB) = some imB)
    (hB3 : fsExists (pjoin (pjoin BASE_UPLOAD_DIR imB.category) fB) stB.files = true)
    (hB4 : envB.removeOk = true) (hB5 : envB.dbOk = false)
    (stC : St) (catC scC : String) (envC : Env)
    (hC1 : validate_category catC = .ok scC)
    (hC2 : (stC.db.filter (fun r => r.category == scC)).isEmpty = false)
    (hC3 : stC.dirs.contains (pjoin BASE_UPLOAD_DIR scC) = false)
    (hC4 : envC.dbOk = true)
    (stD : St) (catD scD : String) (envD : Env)
    (hD1 : validate_category catD = .ok scD)
    (hD2 : (stD.db.filter (fun r => r.category == scD)).isEmpty = false)
    (hD3 : stD.dirs.contains (pjoin BASE_UPLOAD_DIR scD) = true)
    (hD4 : envD.removeOk = true) (hD5 : envD.dbOk = false)
    (stE : St) (envE : Env)
    (hE1 : (stE.db.length == 0) = false)
    (hE2 : envE.removeOk = true) (hE3 : envE.dbOk = false) :
    delete_image fA envA stA =
      ({ stA with db := stA.db.filter (fun r => r.id != imA.id) }, .ok fA) ∧
    delete_image fB envB stB =
      ({ stB with files := fsRemove (pjoin (pjoin BASE_UPLOAD_DIR imB.category) fB) stB.files },
       .error .dbFailed) ∧
    delete_category catC envC stC =
      ({ stC with db := stC.db.filter (fun r => r.category != scC) },
       .ok (scC, (stC.db.filter (fun r => r.category == scC)).length)) ∧
    delete_category catD envD stD =
      ({ stD with
          files := stD.files.filter
            (fun p => !(((pjoin BASE_UPLOAD_DIR scD).data ++ ['/']).isPrefixOf p.1.data)),
          dirs := stD.dirs.filter
            (fun d => !(decide (d = pjoin BASE_UPLOAD_DIR scD)
                        || ((pjoin BASE_UPLOAD_DIR scD).data ++ ['/']).isPrefixOf d.data)) },
       .error .dbFailed) ∧
    delete_all envE stE =
      ({ stE with files := stE.files.filter (fun p => !(underBase p.1)),
                  dirs := stE.dirs.filter (fun d => !(underBase d)) },
       .error .dbFailed) := by
  refine ⟨?_, ?_, ?_, ?_, ?_⟩
  · unfold delete_image
    rw [if_neg (by simp [hA1]), hA2]
    simp [hA3, hA4]
  · unfold delete_image
    rw [if_neg (by simp [hB1]), hB2]
    simp [hB3, hB4, hB5]
  · unfold delete_category
    rw [hC1]
    have hC3m : pjoin BASE_UPLOAD_DIR scC ∉ stC.dirs := by simpa using hC3
    simp [hC2, hC3m, hC4]
  · unfold delete_category
    rw [hD1]
    have hD3m : pjoin BASE_UPLOAD_DIR scD ∈ stD.dirs := by simpa using hD3
    simp [hD2, hD3m, hD4, hD5]
  · unfold delete_all
    simp [hE1, hE2, hE3]

theorem delete_blob_before_row_witness :
    delete_image "t.png" okEnv ⟨[], ["images"], [⟨0, "t.png", "pets", 0⟩], 1, 0⟩ =
      ({ (⟨[], ["images"], [⟨0, "t.png", "pets", 0⟩], 1, 0⟩ : St) with
          db := ([⟨0, "t.png", "pets", 0⟩] : List Image).filter
            (fun r => r.id != (0 : Nat)) }, .ok "t.png") ∧
    delete_image "t.png" ⟨true, true, false⟩
        ⟨[("images/pets/t.png", [1])], ["images", "images/pets"],
          [⟨0, "t.png", "pets", 0⟩], 1, 0⟩ =
      ({ (⟨[("images/pets/t.png", [1])], ["images", "images/pets"],
            [⟨0, "t.png", "pets", 0⟩], 1, 0⟩ : St) with
          files := fsRemove (pjoin (pjoin BASE_UPLOAD_DIR "pets") "t.png")
            [("images/pets/t.png", [1])] }, .error .dbFailed) ∧
    delete_category "pets" okEnv ⟨[], ["images"], [⟨0, "t.png", "pets", 0⟩], 1, 0⟩ =
      ({ (⟨[], ["images"], [⟨0, "t.png", "pets", 0⟩], 1, 0⟩ : St) with
          db := ([⟨0, "t.png", "pets", 0⟩] : List Image).filter
            (fun r => r.category != "pets") },
       .ok ("pets", (([⟨0, "t.png", "pets", 0⟩] : List Image).filter
            (fun r => r.category == "pets")).length)) ∧
    delete_category "pets" ⟨true, true, false⟩
        ⟨[("images/pets/t.png", [1])], ["images", "images/pets"],
          [⟨0, "t.png", "pets", 0⟩], 1, 0⟩ =
      ({ (⟨[("images/pets/t.png", [1])], ["images", "images/pets"],
            [⟨0, "t.png", "pets", 0⟩], 1, 0⟩ : St) with
          files := [("images/pets/t.png", [1])].filter
            (fun p => !(((pjoin BASE_UPLOAD_DIR "pets").data ++ ['/']).isPrefixOf p.1.data)),
          dirs := ["images", "images/pets"].filter
            (fun d => !(decide (d = pjoin BASE_UPLOAD_DIR "pets")
                        || ((pjoin BASE_UPLOAD_DIR "pets").data ++ ['/']).isPrefixOf d.data)) },
       .error .dbFailed) ∧
    delete_all ⟨true, true, false⟩
        ⟨[("images/pets/t.png", [1])], ["images", "images/pets"],
          [⟨0, "t.png", "pets", 0⟩], 1, 0⟩ =
      ({ (⟨[("images/pets/t.png", [1])], ["images", "images/pets"],
            [⟨0, "t.png", "pets", 0⟩], 1, 0⟩ : St) with
          files := [("images/pets/t.png", [1])].filter (fun p => !(underBase p.1)),
          dirs := ["images", "images/pets"].filter (fun d => !(underBase d)) },
       .error .dbFailed) :=
  delete_blob_before_row
    ⟨[], ["images"], [⟨0, "t.png", "pets", 0⟩], 1, 0⟩ "t.png" ⟨0, "t.png", "pets", 0⟩ okEnv
    (by decide) (by decide) (by decide) rfl
    ⟨[("images/pets/t.png", [1])], ["images", "images/pets"],
      [⟨0, "t.png", "pets", 0⟩], 1, 0⟩ "t.png" ⟨0, "t.png", "pets", 0⟩ ⟨true, true, false⟩
    (by decide) (by decide) (by decide) rfl rfl
    ⟨[], ["images"], [⟨0, "t.png", "pets", 0⟩], 1, 0⟩ "pets" "pets" okEnv
    (by decide) (by decide) (by decide) rfl
    ⟨[("images/pets/t.png", [1])], ["images", "images/pets"],
      [⟨0, "t.png", "pets", 0⟩], 1, 0⟩ "pets" "pets" ⟨true, true, false⟩
    (by decide) (by decide) (by decide) rfl rfl
    ⟨[("images/pets/t.png", [1])], ["images", "images/pets"],
      [⟨0, "t.png", "pets", 0⟩], 1, 0⟩ ⟨true, true, false⟩
    (by decide) rfl rfl

end GlossyImages
